import Mathlib

/-!
Shallow embedding of `src/rsnapshot_backup/rsnapshot_backup.py`.

The script is a sequential per-item backup orchestrator: it loads a YAML
config, takes a non-blocking run lock, loops over backup items, applies
per-item defaults, runs precondition checks, and either rotates (one
rsnapshot invocation per distinct `path`) or syncs (SSH or native rsync
pipelines), counting errors and catching any per-item exception at the
item boundary.

External commands (`run_cmd` / `run_cmd_pipe`) are modelled by an
environment (`ItemEnv`) recording, per call site, whether the call raised
a Python exception or returned a retcode (plus captured stdout for the
hostname probe).  File-system side effects that the claims are about are
modelled explicitly in `RunState`: the error counter, the
`paths_processed` rotation-dedup list, the existence of the
`RSNAPSHOT_PASSWD` credentials file, and an event trace of tool
invocations.
-/

namespace RsnapshotBackup

/-- Python `str.isspace` characters relevant to `lstrip`/`rstrip`
(space, tab, newline, carriage return, vertical tab, form feed). -/
def py_isspace (c : Char) : Bool :=
  c = ' ' || c = '\t' || c = '\n' || c = '\r' || c = '\x0b' || c = '\x0c'

/-- Python `str.lstrip()` with no argument: drop leading whitespace. -/
def lstrip (s : String) : String :=
  ⟨s.data.dropWhile py_isspace⟩

/-- Python `str.rstrip()` with no argument: drop trailing whitespace. -/
def rstrip (s : String) : String :=
  ⟨(s.data.reverse.dropWhile py_isspace).reverse⟩

/-- Python value of `item["connect_port"]`: the source assigns either an
`int` literal (`22` / `873`) or a `str` (a piece of `connect.split(":")`). -/
inductive PortVal where
  | int (n : Nat)
  | str (s : String)
deriving DecidableEq, Repr

/-- Rendering of a `PortVal` by Python string formatting. -/
def PortVal.fmt : PortVal → String
  | .int n => toString n
  | .str s => s

/-- One backup item of the YAML config (`config["items"]`).  Keys that the
script reads with a plain `item[...]` access after establishing presence
are required fields; keys guarded by `"key" in item` are `Option`s.
Derived keys that the script itself writes (`connect_host`,
`connect_port`, `verbosity_level`, `rsync_verbosity_args`) are `Option`s
that start out `none` in a freshly loaded item. -/
structure Item where
  number : Nat
  enabled : Bool
  host : String
  type : String
  path : String
  connect : String
  source : String
  retain_hourly : Option Nat := none
  retain_daily : Option Nat := none
  retain_weekly : Option Nat := none
  retain_monthly : Option Nat := none
  connect_user : Option String := none
  connect_password : Option String := none
  validate_hostname : Option Bool := none
  mysql_noevents : Option Bool := none
  postgresql_noclean : Option Bool := none
  native_txt_check : Option Bool := none
  native_10h_limit : Option Bool := none
  rsync_args : Option String := none
  mysql_dump_dir : Option String := none
  postgresql_dump_dir : Option String := none
  mongodb_dump_dir : Option String := none
  mysqldump_args : Option String := none
  pg_dump_args : Option String := none
  mongo_args : Option String := none
  xtrabackup_throttle : Option String := none
  xtrabackup_parallel : Option String := none
  xtrabackup_compress_threads : Option String := none
  xtrabackup_args : Option String := none
  mysql_dump_type : Option String := none
  before_backup_check : Option String := none
  exec_before_rsync : Option String := none
  exec_after_rsync : Option String := none
  exclude : Option (List String) := none
  verbosity_level : Option Nat := none
  rsync_verbosity_args : Option String := none
deriving DecidableEq, Repr

/-- The item-defaults block (lines 181-237): every `if key not in item`
assignment fills the key only when absent; the verbosity pair (lines
206-211) is assigned unconditionally from the `--debug` flag. -/
def apply_defaults (debug : Bool) (item : Item) : Item :=
  { item with
    retain_daily := some (item.retain_daily.getD 7)
    retain_weekly := some (item.retain_weekly.getD 4)
    retain_monthly := some (item.retain_monthly.getD 3)
    connect_user := some (item.connect_user.getD "root")
    validate_hostname := some (item.validate_hostname.getD true)
    mysql_noevents := some (item.mysql_noevents.getD false)
    postgresql_noclean := some (item.postgresql_noclean.getD false)
    native_txt_check := some (item.native_txt_check.getD false)
    native_10h_limit := some (item.native_10h_limit.getD false)
    verbosity_level := some (if debug then 5 else 2)
    rsync_verbosity_args := some (if debug then "--human-readable --progress" else "")
    rsync_args := some (item.rsync_args.getD "")
    mysql_dump_dir := some (item.mysql_dump_dir.getD "/var/backups/mysql")
    postgresql_dump_dir := some (item.postgresql_dump_dir.getD "/var/backups/postgresql")
    mongodb_dump_dir := some (item.mongodb_dump_dir.getD "/var/backups/mongodb")
    mysqldump_args := some (item.mysqldump_args.getD "")
    pg_dump_args := some (item.pg_dump_args.getD "")
    mongo_args := some (item.mongo_args.getD "")
    xtrabackup_throttle := some (item.xtrabackup_throttle.getD "20")
    xtrabackup_parallel := some (item.xtrabackup_parallel.getD "2")
    xtrabackup_compress_threads := some (item.xtrabackup_compress_threads.getD "2")
    xtrabackup_args := some (item.xtrabackup_args.getD "") }

/-- Outcome of one external command call (`run_cmd` / `run_cmd_pipe`):
either it returns a retcode, or the Python layer raises (the script always
wraps such a raise into `Exception("Caught exception on subprocess.run
execution")`, which propagates to the per-item boundary). -/
inductive CmdOut where
  | ret (code : Int)
  | exn
deriving DecidableEq, Repr

/-- External-world outcomes for the command call sites of one item's
processing, in source order. -/
structure ItemEnv where
  before_check : CmdOut := .ret 0
  rotate_cmd : CmdOut := .ret 0
  ssh_check1 : CmdOut := .ret 0
  loopback_script : CmdOut := .ret 0
  ssh_check2 : CmdOut := .ret 0
  hostname_cmd : CmdOut := .ret 0
  hostname_stdout : String := ""
  exec_before : CmdOut := .ret 0
  dump_cmd : CmdOut := .ret 0
  cleanup_cmd : CmdOut := .ret 0
  rsnapshot_cmd : CmdOut := .ret 0
  exec_after : CmdOut := .ret 0
  native_check : CmdOut := .ret 0
deriving DecidableEq, Repr

/-- Trace events: invocations of the external rsnapshot tool.  A rotation
invocation records the `snapshot_root` of the config it was run against
and the rotation verb; a native sync invocation records whether the
credentials file existed at invocation time. -/
inductive Event where
  | rotate (path : String) (command : String)
  | sync_ssh (path : String)
  | sync_native (path : String) (passwd_present : Bool)
deriving DecidableEq, Repr

/-- Run-wide mutable state: the `errors` counter and `paths_processed`
list of the source, plus the modelled existence of `RSNAPSHOT_PASSWD` on
disk and the trace of tool invocations. -/
structure RunState where
  errors : Nat
  paths_processed : List String
  passwd_exists : Bool
  events : List Event
deriving DecidableEq, Repr

def init_state : RunState := ⟨0, [], false, []⟩

def add_error (st : RunState) : RunState := { st with errors := st.errors + 1 }

def push_event (st : RunState) (e : Event) : RunState :=
  { st with events := st.events ++ [e] }

/-- The mutually exclusive mode flags of the CLI (exactly one is set). -/
inductive Mode where
  | sync
  | rotate_hourly
  | rotate_daily
  | rotate_weekly
  | rotate_monthly
deriving DecidableEq, Repr

def is_rotation : Mode → Bool
  | .sync => false
  | _ => true

/-- The rotation verb chosen by the cascade of `if args.rotate_*` tests. -/
def rsnapshot_command : Mode → String
  | .rotate_hourly => "hourly"
  | .rotate_daily => "daily"
  | .rotate_weekly => "weekly"
  | .rotate_monthly => "monthly"
  | .sync => "sync"

/-- Process-wide inputs: the `--debug` flag, the selected mode, the local
hostname, and the `--item-number` / `--host` filters. -/
structure Glob where
  debug : Bool := false
  mode : Mode
  self_hostname : String := "backupsrv"
  item_number : Option String := none
  host_filter : Option String := none
deriving Repr

/-- The filter block: `continue` unless the item number / host matches the
respective CLI filter when that filter is given. -/
def passes_filters (g : Glob) (item : Item) : Bool :=
  (match g.item_number with
   | none => true
   | some s => toString item.number == s) &&
  (match g.host_filter with
   | none => true
   | some h => item.host == h)

/-- Python formatting of a dict value that the defaulting pass guarantees
to be present; a `none` here would be a `KeyError` in the source and is
unreachable in the pipeline. -/
def fmt_nat : Option Nat → String
  | some n => toString n
  | none => "KEY_ERROR"

/-- Same as `fmt_nat` for string-valued keys. -/
def fmt_str : Option String → String
  | some s => s
  | none => "KEY_ERROR"

/-- The hourly retention line: active with the item's value when
`retain_hourly` is present, otherwise commented out with placeholder
`NONE` (`retain_hourly_comment` / `retain_hourly` format arguments). -/
def retain_hourly_line (item : Item) : String :=
  match item.retain_hourly with
  | some h => "retain\t\thourly\t" ++ toString h
  | none => "#retain\t\thourly\tNONE"

/-- Rotation config template (lines 274-304), one list entry per line of
the dedented template; the written file is `intercalate "\n" lines ++ "\n"`. -/
def rotation_conf_lines (item : Item) : List String :=
  ["config_version\t1.2",
   "snapshot_root\t" ++ item.path,
   "cmd_cp\t\t/bin/cp",
   "cmd_rm\t\t/bin/rm",
   "cmd_rsync\t/usr/bin/rsync",
   "cmd_ssh\t\t/usr/bin/ssh",
   "cmd_logger\t/usr/bin/logger",
   retain_hourly_line item,
   "retain\t\tdaily\t" ++ fmt_nat item.retain_daily,
   "retain\t\tweekly\t" ++ fmt_nat item.retain_weekly,
   "retain\t\tmonthly\t" ++ fmt_nat item.retain_monthly,
   "verbose\t\t" ++ fmt_nat item.verbosity_level,
   "loglevel\t3",
   "logfile\t\t/opt/sysadmws/rsnapshot_backup/rsnapshot.log",
   "lockfile\t/opt/sysadmws/rsnapshot_backup/rsnapshot.pid",
   "sync_first\t1",
   "# any backup definition enough for rotation",
   "backup\t\t/etc/\t\trsnapshot/"]

/-- The full rotation config text. -/
def rotation_conf (item : Item) : String :=
  String.intercalate "\n" (rotation_conf_lines item) ++ "\n"

/-- `ssh_args` constant of the sync branch. -/
def ssh_args : String := "-o BatchMode=yes -o StrictHostKeyChecking=no"

/-- Python `str.split(sep)` for a one-character separator, over the
character list: splitting an empty string gives `[[]]`, and every
occurrence of the separator opens a new field. -/
def py_split_char (sep : Char) : List Char → List (List Char)
  | [] => [[]]
  | c :: rest =>
    match py_split_char sep rest with
    | [] => [[]]
    | grp :: gs => if c = sep then [] :: grp :: gs else (c :: grp) :: gs

/-- Python `s.split(sep)` for a one-character separator string. -/
def py_split (s : String) (sep : Char) : List String :=
  (py_split_char sep s.data).map (fun l => ⟨l⟩)

/-- `connect_host` / `connect_port` derivation (lines 326-331 and
925-930): `":" in connect` then `connect.split(":")` fields 0 and 1 when
a colon is present, otherwise the whole string and an integer default
port. -/
def derive_connect (connect : String) (default_port : Nat) : String × PortVal :=
  if connect.data.contains ':' then
    ((py_split connect ':').getD 0 "", PortVal.str ((py_split connect ':').getD 1 ""))
  else
    (connect, PortVal.int default_port)

/-- `conf_backup_line_template` (line 795): one backup source line. -/
def conf_backup_line (user host source tab_before_rsync_long_args rsync_long_args : String) :
    String :=
  "backup\t\t" ++
    (user ++ "@" ++ host ++ ":" ++ source ++ "/\trsnapshot/" ++
      tab_before_rsync_long_args ++ rsync_long_args)

/-- `data_expand` (lines 804-808): per-OS-family canonical directory sets. -/
def data_expand : List (String × List String) :=
  [("UBUNTU", ["/etc", "/home", "/root", "/var/spool/cron", "/var/lib/dpkg", "/usr/local",
      "/opt/sysadmws"]),
   ("DEBIAN", ["/etc", "/home", "/root", "/var/spool/cron", "/var/lib/dpkg", "/usr/local",
      "/opt/sysadmws"]),
   ("CENTOS", ["/etc", "/home", "/root", "/var/spool/cron", "/var/lib/rpm", "/usr/local",
      "/opt/sysadmws"])]

/-- `"exclude" in item and source in item["exclude"]`. -/
def exclude_has (item : Item) (source : String) : Bool :=
  match item.exclude with
  | some ex => ex.contains source
  | none => false

/-- `"mysql_dump_type" in item and item["mysql_dump_type"] == "xtrabackup"`. -/
def is_xtrabackup (item : Item) : Bool :=
  match item.mysql_dump_type with
  | some t => t == "xtrabackup"
  | none => false

/-- The `conf_backup_lines` accumulation (lines 800-854), as the list of
generated lines.  For `RSYNC_SSH`, `item["source"]` is expanded through
`data_expand` when it is one of the OS-family keys (skipping excluded
directories), else a single line with the source itself; database types
get a single line pointing at the respective dump directory. -/
def conf_backup_lines (item : Item) (connect_host : String) : List String :=
  if item.type == "RSYNC_SSH" then
    match List.lookup item.source data_expand with
    | some dirs =>
      (dirs.filter (fun source => !exclude_has item source)).map (fun source =>
        conf_backup_line (fmt_str item.connect_user) connect_host source
          (if source == "/opt/sysadmws" then "\t" else "")
          (if source == "/opt/sysadmws" then
            "+rsync_long_args=--exclude=/opt/sysadmws/bulk_log --exclude=log"
          else ""))
    | none =>
      [conf_backup_line (fmt_str item.connect_user) connect_host item.source "" ""]
  else if item.type == "MYSQL_SSH" then
    [conf_backup_line (fmt_str item.connect_user) connect_host (fmt_str item.mysql_dump_dir)
      (if is_xtrabackup item then "\t" else "")
      (if is_xtrabackup item then "+rsync_long_args=--no-compress" else "")]
  else if item.type == "POSTGRESQL_SSH" then
    [conf_backup_line (fmt_str item.connect_user) connect_host
      (fmt_str item.postgresql_dump_dir) "" ""]
  else if item.type == "MONGODB_SSH" then
    [conf_backup_line (fmt_str item.connect_user) connect_host (fmt_str item.mongodb_dump_dir)
      "" ""]
  else []

/-- SSH sync config template (lines 857-893), one list entry per line; the
`{conf_backup_lines}` slot expands to the generated backup lines, and the
blob's own trailing newline yields a final empty line. -/
def sync_conf_lines (item : Item) (connect_host : String) (connect_port : PortVal) :
    List String :=
  ["config_version\t1.2",
   "snapshot_root\t" ++ item.path,
   "cmd_cp\t\t/bin/cp",
   "cmd_rm\t\t/bin/rm",
   "cmd_rsync\t/usr/bin/rsync",
   "cmd_ssh\t\t/usr/bin/ssh",
   "cmd_logger\t/usr/bin/logger",
   retain_hourly_line item,
   "retain\t\tdaily\t" ++ fmt_nat item.retain_daily,
   "retain\t\tweekly\t" ++ fmt_nat item.retain_weekly,
   "retain\t\tmonthly\t" ++ fmt_nat item.retain_monthly,
   "verbose\t\t" ++ fmt_nat item.verbosity_level,
   "loglevel\t3",
   "logfile\t\t/opt/sysadmws/rsnapshot_backup/rsnapshot.log",
   "lockfile\t/opt/sysadmws/rsnapshot_backup/rsnapshot.pid",
   "ssh_args\t" ++ ssh_args ++ " -p " ++ connect_port.fmt,
   "rsync_long_args\t-az --delete --delete-excluded --numeric-ids --relative " ++
     fmt_str item.rsync_verbosity_args ++ " " ++ fmt_str item.rsync_args,
   "sync_first\t1"] ++
  conf_backup_lines item connect_host ++ [""]

/-- The full SSH sync config text. -/
def sync_conf (item : Item) (connect_host : String) (connect_port : PortVal) : String :=
  String.intercalate "\n" (sync_conf_lines item connect_host connect_port) ++ "\n"

/-! ### Per-item pipeline

Each stage returns `(state, raised)`, where `raised = true` means a
Python exception escaped towards the per-item boundary (lines 1027-1030).
A plain `continue` of the source (skip to the next item) is a normal
return with `raised = false`. -/

/-- Final part of the SSH sync branch (lines 856-921): write the sync
config, run `rsnapshot ... sync`, then the optional `exec_after_rsync`
remote hook (hook failure adds an error but the script continues). -/
def ssh_run_rsnapshot (env : ItemEnv) (item : Item) (st : RunState) : RunState × Bool :=
  let st := push_event st (.sync_ssh item.path)
  match env.rsnapshot_cmd with
  | .exn => (st, true)
  | .ret r =>
    let st := if r == 0 then st else add_error st
    match item.exec_after_rsync with
    | none => (st, false)
    | some _ =>
      match env.exec_after with
      | .exn => (st, true)
      | .ret r2 => (if r2 == 0 then st else add_error st, false)

/-- DB dump preparation for `MYSQL_SSH` / `POSTGRESQL_SSH` / `MONGODB_SSH`
(lines 437-791): run the composed remote dump script (failure skips the
item), then the best-effort partial-download cleanup (failure adds an
error but the script continues); `RSYNC_SSH` items skip this stage. -/
def ssh_dump_stage (env : ItemEnv) (item : Item) (st : RunState) : RunState × Bool :=
  if item.type == "MYSQL_SSH" || item.type == "POSTGRESQL_SSH" ||
      item.type == "MONGODB_SSH" then
    match env.dump_cmd with
    | .exn => (st, true)
    | .ret r =>
      if r == 0 then
        match env.cleanup_cmd with
        | .exn => (st, true)
        | .ret r2 =>
          let st := if r2 == 0 then st else add_error st
          ssh_run_rsnapshot env item st
      else (add_error st, false)
  else ssh_run_rsnapshot env item st

/-- Optional `exec_before_rsync` remote hook (lines 421-433): failure adds
an error but the script continues. -/
def ssh_exec_before_stage (env : ItemEnv) (item : Item) (st : RunState) : RunState × Bool :=
  match item.exec_before_rsync with
  | none => ssh_dump_stage env item st
  | some _ =>
    match env.exec_before with
    | .exn => (st, true)
    | .ret r =>
      let st := if r == 0 then st else add_error st
      ssh_dump_stage env item st

/-- Hostname retrieval and comparison (lines 399-418).  NOTE: in the
source, `if item["validate_hostname"]:` (line 400) guards only the log
message; the `try:` with the remote `hostname` call and the comparison is
at the same indentation and therefore runs unconditionally.  A mismatch
or a failed probe skips the item with an error. -/
def ssh_validate_stage (env : ItemEnv) (item : Item) (st : RunState) : RunState × Bool :=
  match env.hostname_cmd with
  | .exn => (st, true)
  | .ret r =>
    if r == 0 then
      let hostname_received := rstrip (lstrip env.hostname_stdout)
      if hostname_received == item.host then
        ssh_exec_before_stage env item st
      else (add_error st, false)
    else (add_error st, false)

/-- SSH access check with loopback key-provisioning fallback (lines
333-397): probe once; on failure, when `item["host"]` equals the local
hostname, run the authorized-keys script and re-probe exactly once;
otherwise (or if any re-attempt fails) skip the item with an error. -/
def process_sync_ssh (g : Glob) (env : ItemEnv) (item : Item) (st : RunState) :
    RunState × Bool :=
  match env.ssh_check1 with
  | .exn => (st, true)
  | .ret r =>
    if r == 0 then ssh_validate_stage env item st
    else if item.host == g.self_hostname then
      match env.loopback_script with
      | .exn => (st, true)
      | .ret r2 =>
        if r2 == 0 then
          match env.ssh_check2 with
          | .exn => (st, true)
          | .ret r3 =>
            if r3 == 0 then ssh_validate_stage env item st
            else (add_error st, false)
        else (add_error st, false)
    else (add_error st, false)

/-- Native sync tail (lines 964-1021): write the native config, run
`rsnapshot ... sync` (with the optional 10h watchdog), then
`os.remove(RSNAPSHOT_PASSWD)`.  The removal is (and stays) after the
invocation: an exception in the invocation leaves the file on disk. -/
def native_run_rsnapshot (env : ItemEnv) (item : Item) (st : RunState) : RunState × Bool :=
  let st := push_event st (.sync_native item.path st.passwd_exists)
  match env.rsnapshot_cmd with
  | .exn => (st, true)
  | .ret r =>
    let st := if r == 0 then st else add_error st
    ({ st with passwd_exists := false }, false)

/-- `RSYNC_NATIVE` sync branch (lines 923-1021): derive host/port with
default port 873, require `connect_password` (skip with error when
missing), write the credentials file (mode 0600), optionally run the
remote `.backup` existence check — whose failure skips the item with an
error while the just-written credentials file stays on disk — then run
the tool and remove the credentials file. -/
def process_sync_native (env : ItemEnv) (item : Item) (st : RunState) : RunState × Bool :=
  match item.connect_password with
  | none => (add_error st, false)
  | some _ =>
    let st := { st with passwd_exists := true }
    if item.native_txt_check.getD false then
      match env.native_check with
      | .exn => (st, true)
      | .ret r =>
        if r == 0 then native_run_rsnapshot env item st
        else (add_error st, false)
    else native_run_rsnapshot env item st

/-- Rotation branch (lines 257-317): dedupe by `path` via
`paths_processed`, write the rotation config, and run
`rsnapshot -c ... {command}` (failure adds an error). -/
def process_rotation (g : Glob) (env : ItemEnv) (item : Item) (st : RunState) :
    RunState × Bool :=
  if item.path ∈ st.paths_processed then (st, false)
  else
    let st := { st with paths_processed := st.paths_processed ++ [item.path] }
    let st := push_event st (.rotate item.path (rsnapshot_command g.mode))
    match env.rotate_cmd with
    | .exn => (st, true)
    | .ret r => (if r == 0 then st else add_error st, false)

/-- Mode dispatch after the precondition check: the rotation block (lines
257-317) or the sync block (lines 320-1025); in sync mode an unknown
`type` adds an error (lines 1023-1025). -/
def process_item_mode (g : Glob) (env : ItemEnv) (item : Item) (st : RunState) :
    RunState × Bool :=
  match g.mode with
  | .sync =>
    if item.type == "RSYNC_SSH" || item.type == "MYSQL_SSH" ||
        item.type == "POSTGRESQL_SSH" || item.type == "MONGODB_SSH" then
      process_sync_ssh g env item st
    else if item.type == "RSYNC_NATIVE" then
      process_sync_native env item st
    else (add_error st, false)
  | _ => process_rotation g env item st

/-- Whole body of the per-item `try` (lines 177-1025): apply the item
defaults, run the optional local `before_backup_check` (non-zero exit
skips the item with an error), then dispatch on the mode. -/
def process_item (g : Glob) (env : ItemEnv) (item0 : Item) (st : RunState) :
    RunState × Bool :=
  let item := apply_defaults g.debug item0
  match item.before_backup_check with
  | none => process_item_mode g env item st
  | some _ =>
    match env.before_check with
    | .exn => (st, true)
    | .ret r =>
      if r == 0 then process_item_mode g env item st
      else (add_error st, false)

/-- The item loop (lines 163-1030): skip disabled and filtered-out items;
run each remaining item inside a `try` whose `except` adds one error and
moves on to the next item. -/
def items_loop (g : Glob) : List (Item × ItemEnv) → RunState → RunState
  | [], st => st
  | (item, env) :: rest, st =>
    if !item.enabled then items_loop g rest st
    else if !passes_filters g item then items_loop g rest st
    else
      match process_item g env item st with
      | (st', true) => items_loop g rest (add_error st')
      | (st', false) => items_loop g rest st'

/-- Top level (lines 129-1048).  Inputs: the config-load outcome (a raise
while opening/parsing exits 1 through the outer handler), the optional
`enabled` key (a missing key is a `KeyError`, exiting 1), the items with
their external-world outcomes, and whether the non-blocking run lock was
acquired (`lock.acquire(timeout=0)` raises when already locked, exiting
1).  Returns the process exit code. -/
def main_exit (g : Glob) (cfg : Except Unit (Option Bool × List (Item × ItemEnv)))
    (lock_ok : Bool) : Nat :=
  match cfg with
  | .error _ => 1
  | .ok (none, _) => 1
  | .ok (some enabled, items) =>
    if enabled != true then 0
    else if !lock_ok then 1
    else
      let st := items_loop g items init_state
      if st.errors > 0 then 1 else 0

/-- Paths of a list of configured items, in order. -/
def item_paths (items : List (Item × ItemEnv)) : List String :=
  items.map (fun pr => pr.1.path)

/-- Number of rotation invocations recorded for snapshot root `p`. -/
def rotate_count (p : String) (events : List Event) : Nat :=
  (events.filter (fun e =>
    match e with
    | .rotate q _ => q == p
    | _ => false)).length

/-- Eligibility gate of the item loop for one item: it is enabled (line
165), passes the `--item-number` / `--host` filters (lines 168-174), and
its optional local `before_backup_check` is absent or exits 0 (lines
241-251).  An item failing this gate is skipped before the rotation
block is reached (a failing check does `errors += 1; continue`). -/
def rotation_eligible (g : Glob) (pr : Item × ItemEnv) : Bool :=
  pr.1.enabled && passes_filters g pr.1 &&
    (pr.1.before_backup_check.isNone || pr.2.before_check == CmdOut.ret 0)

/-! ### Concrete sample inputs used by witnesses and counterexamples -/

/-- Rotation-mode items for the C3 witness: two items share path `/a`. -/
def item3 (n : Nat) (p : String) : Item :=
  { number := n, enabled := true, host := "h", type := "RSYNC_SSH",
    path := p, connect := "h", source := "/etc" }

/-- Rotation-mode item with a local `before_backup_check` configured,
for C3's counterexample. -/
def item3c (n : Nat) (p : String) : Item :=
  { number := n, enabled := true, host := "h", type := "RSYNC_SSH",
    path := p, connect := "h", source := "/etc",
    before_backup_check := some "/usr/local/bin/check.sh" }

def glob3 : Glob := { mode := .rotate_daily }

/-- Environment for C3's counterexample: the `before_backup_check`
exits 1. -/
def env3fail : ItemEnv := { before_check := .ret 1 }

/-- Sample `RSYNC_SSH` item for C8's counterexample: `source` is the
literal `"ALL"` sentinel. -/
def item8all : Item :=
  { number := 7, enabled := true, host := "h", type := "RSYNC_SSH",
    path := "/bak8", connect := "h", source := "ALL" }

/-- Sample `RSYNC_SSH` item for C8's witness: an OS-family source with an
exclusion. -/
def item8w : Item :=
  { number := 8, enabled := true, host := "h", type := "RSYNC_SSH",
    path := "/bak8w", connect := "h", source := "UBUNTU",
    exclude := some ["/home"] }

/-- Sample item for C7's witness carrying `retain_hourly: 3`. -/
def item7a : Item :=
  { number := 9, enabled := true, host := "h", type := "RSYNC_SSH",
    path := "/bak7", connect := "h", source := "/etc",
    retain_hourly := some 3 }

/-- Sample item for C7's witness with no `retain_hourly`. -/
def item7b : Item :=
  { number := 10, enabled := true, host := "h", type := "RSYNC_SSH",
    path := "/bak7", connect := "h", source := "/etc" }


/-- Sample item for the C9 witness: explicit `0`/`false` values that the
defaulting pass must not override. -/
def item9w : Item :=
  { number := 9, enabled := true, host := "h", type := "RSYNC_SSH", path := "/b",
    connect := "h", source := "/etc", retain_daily := some 0,
    mysql_noevents := some false }

/-- Sample SSH item for C6: expected host `db1`. -/
def item6 : Item :=
  { number := 1, enabled := true, host := "db1", type := "RSYNC_SSH",
    path := "/bak", connect := "10.0.0.1", source := "/etc" }

def glob6 : Glob := { mode := .sync }

/-- Environment for C6 with remote hostname output `" db1 \n"`. -/
def env6a : ItemEnv := { hostname_stdout := " db1 \n" }

/-- Environment for C6 with remote hostname output `"db2"`. -/
def env6b : ItemEnv := { hostname_stdout := "db2" }

/-- Sample SSH item for C5 with `validate_hostname` explicitly `false`. -/
def item5 : Item :=
  { number := 2, enabled := true, host := "db1", type := "RSYNC_SSH",
    path := "/bak", connect := "10.0.0.1", source := "/etc",
    validate_hostname := some false }

def glob5 : Glob := { mode := .sync }

/-- Environment for C5: the remote hostname probe answers `"db2"`. -/
def env5 : ItemEnv := { hostname_stdout := "db2" }

/-- Sample native item for C4 with the remote `.backup` check enabled. -/
def item4 : Item :=
  { number := 3, enabled := true, host := "win1", type := "RSYNC_NATIVE",
    path := "/bak4", connect := "10.0.0.2", source := "/data",
    connect_password := some "pw", native_txt_check := some true }

def glob4 : Glob := { mode := .sync }

/-- Environment for C4's counterexample: the remote `.backup` existence
check fails (`grep` exits nonzero). -/
def env4 : ItemEnv := { native_check := .ret 1 }

/-- Sample native item for the C4 amended witness (check disabled). -/
def item4w : Item :=
  { number := 4, enabled := true, host := "win2", type := "RSYNC_NATIVE",
    path := "/bak4w", connect := "10.0.0.3", source := "/data",
    connect_password := some "pw" }

/-- Sample item for C1's witness: its local precondition check raises. -/
def item1w : Item :=
  { number := 5, enabled := true, host := "h", type := "RSYNC_SSH",
    path := "/bak1", connect := "h", source := "/etc",
    before_backup_check := some "/usr/local/bin/check.sh" }

def glob1 : Glob := { mode := .sync }

/-- Environment for C1's witness: `run_cmd` raises on the check. -/
def env1w : ItemEnv := { before_check := .exn }

/-- Sample failing item for the C2 witness: unknown type in sync mode. -/
def item2w : Item :=
  { number := 6, enabled := true, host := "h", type := "BOGUS",
    path := "/bak2", connect := "h", source := "/etc" }

def glob2 : Glob := { mode := .sync }

/-! ### Helper lemmas -/

/-- Field-preservation facts for `apply_defaults`: keys without a
defaulting rule are untouched, and defaulted keys keep present values. -/
@[simp] lemma apply_defaults_type (d : Bool) (it : Item) :
    (apply_defaults d it).type = it.type := rfl

@[simp] lemma apply_defaults_path (d : Bool) (it : Item) :
    (apply_defaults d it).path = it.path := rfl

@[simp] lemma apply_defaults_host (d : Bool) (it : Item) :
    (apply_defaults d it).host = it.host := rfl

@[simp] lemma apply_defaults_retain_hourly (d : Bool) (it : Item) :
    (apply_defaults d it).retain_hourly = it.retain_hourly := rfl

@[simp] lemma apply_defaults_before_backup_check (d : Bool) (it : Item) :
    (apply_defaults d it).before_backup_check = it.before_backup_check := rfl

@[simp] lemma apply_defaults_exec_before_rsync (d : Bool) (it : Item) :
    (apply_defaults d it).exec_before_rsync = it.exec_before_rsync := rfl

@[simp] lemma apply_defaults_exec_after_rsync (d : Bool) (it : Item) :
    (apply_defaults d it).exec_after_rsync = it.exec_after_rsync := rfl

@[simp] lemma apply_defaults_connect_password (d : Bool) (it : Item) :
    (apply_defaults d it).connect_password = it.connect_password := rfl

@[simp] lemma apply_defaults_native_txt_check (d : Bool) (it : Item) :
    (apply_defaults d it).native_txt_check = some (it.native_txt_check.getD false) := rfl


/-- Two strings with distinct prefixes (witnessed at cut `n`) stay
distinct whatever is appended. -/
lemma append_ne_append (n : Nat) (a b s t : String) (ha : n ≤ a.data.length)
    (hb : n ≤ b.data.length) (hne : a.data.take n ≠ b.data.take n) :
    a ++ s ≠ b ++ t := by
  intro h
  apply hne
  have hd : a.data ++ s.data = b.data ++ t.data := by
    simpa [String.data_append] using congrArg String.data h
  rw [← @List.take_append_of_le_length Char a.data s.data n ha, hd,
    List.take_append_of_le_length hb]

/-- Variant of `append_ne_append` with a bare right-hand side. -/
lemma append_ne_right (n : Nat) (a b s : String) (ha : n ≤ a.data.length)
    (hne : a.data.take n ≠ b.data.take n) :
    a ++ s ≠ b := by
  intro h
  apply hne
  have hd : a.data ++ s.data = b.data := by
    simpa [String.data_append] using congrArg String.data h
  rw [← @List.take_append_of_le_length Char a.data s.data n ha, hd]

/-- A nonempty string with anything appended is not the empty string. -/
lemma append_ne_empty (a s : String) (ha : a.data ≠ []) : a ++ s ≠ "" := by
  intro h
  have hd : a.data ++ s.data = [] := by
    simpa [String.data_append] using congrArg String.data h
  exact ha (List.append_eq_nil.mp hd).1

/-! ### Claims -/

/-- Claim C9: the item-defaulting step is idempotent — applying it twice
under the same debug flag yields the same item as applying it once — and
it never overrides an explicitly supplied value (in particular `false` or
`0`) of any optional field it defaults with an `if key not in item`
rule. -/
theorem C9_defaults_idempotent_and_preserving (debug : Bool) (item : Item) :
    apply_defaults debug (apply_defaults debug item) = apply_defaults debug item ∧
    (∀ v, item.retain_daily = some v → (apply_defaults debug item).retain_daily = some v) ∧
    (∀ v, item.retain_weekly = some v → (apply_defaults debug item).retain_weekly = some v) ∧
    (∀ v, item.retain_monthly = some v → (apply_defaults debug item).retain_monthly = some v) ∧
    (∀ v, item.connect_user = some v → (apply_defaults debug item).connect_user = some v) ∧
    (∀ v, item.validate_hostname = some v →
      (apply_defaults debug item).validate_hostname = some v) ∧
    (∀ v, item.mysql_noevents = some v → (apply_defaults debug item).mysql_noevents = some v) ∧
    (∀ v, item.postgresql_noclean = some v →
      (apply_defaults debug item).postgresql_noclean = some v) ∧
    (∀ v, item.native_txt_check = some v →
      (apply_defaults debug item).native_txt_check = some v) ∧
    (∀ v, item.native_10h_limit = some v →
      (apply_defaults debug item).native_10h_limit = some v) ∧
    (∀ v, item.rsync_args = some v → (apply_defaults debug item).rsync_args = some v) ∧
    (∀ v, item.mysql_dump_dir = some v → (apply_defaults debug item).mysql_dump_dir = some v) ∧
    (∀ v, item.postgresql_dump_dir = some v →
      (apply_defaults debug item).postgresql_dump_dir = some v) ∧
    (∀ v, item.mongodb_dump_dir = some v →
      (apply_defaults debug item).mongodb_dump_dir = some v) ∧
    (∀ v, item.mysqldump_args = some v → (apply_defaults debug item).mysqldump_args = some v) ∧
    (∀ v, item.pg_dump_args = some v → (apply_defaults debug item).pg_dump_args = some v) ∧
    (∀ v, item.mongo_args = some v → (apply_defaults debug item).mongo_args = some v) ∧
    (∀ v, item.xtrabackup_throttle = some v →
      (apply_defaults debug item).xtrabackup_throttle = some v) ∧
    (∀ v, item.xtrabackup_parallel = some v →
      (apply_defaults debug item).xtrabackup_parallel = some v) ∧
    (∀ v, item.xtrabackup_compress_threads = some v →
      (apply_defaults debug item).xtrabackup_compress_threads = some v) ∧
    (∀ v, item.xtrabackup_args = some v →
      (apply_defaults debug item).xtrabackup_args = some v) := by
  refine ⟨by simp [apply_defaults], ?_, ?_, ?_, ?_, ?_, ?_, ?_, ?_, ?_, ?_, ?_, ?_, ?_, ?_,
    ?_, ?_, ?_, ?_, ?_, ?_⟩ <;>
    exact fun v h => by simp [apply_defaults, h]

/-- Witness for C9 at a concrete item carrying explicit `0` and `false`. -/
theorem C9_witness :
    (apply_defaults false item9w).retain_daily = some 0 ∧
    (apply_defaults false item9w).mysql_noevents = some false ∧
    apply_defaults false (apply_defaults false item9w) = apply_defaults false item9w :=
  ⟨(C9_defaults_idempotent_and_preserving false item9w).2.1 0 rfl,
   (C9_defaults_idempotent_and_preserving false item9w).2.2.2.2.2.2.1 false rfl,
   (C9_defaults_idempotent_and_preserving false item9w).1⟩

/-- Claim C10 (counterexample): the source derives `connect_port` as
`connect.split(":")[1]`, the field between the first and second colon —
not "the substring after the first ':'".  At `connect = "h:1:2"` the code
yields port `"1"`, while the substring after the first colon is `"1:2"`. -/
theorem C10_counterexample :
    derive_connect "h:1:2" 22 = ("h", PortVal.str "1") ∧
    "h:1:2".drop 2 = "1:2" ∧
    PortVal.str "1" ≠ PortVal.str "1:2" := by
  refine ⟨by decide, by decide, by decide⟩

/-- Claim C10 (amended): when `connect` contains `":"`, `connect_host` and
`connect_port` are the first and second `":"`-separated fields of
`connect` (for a single colon: the substrings before and after it); when
it contains no `":"`, the host is `connect` itself and the port is the
integer default of the calling branch — `22` in the SSH branch, `873` in
the native branch (see `process_sync_ssh` / `process_sync_native`). -/
theorem C10_amended_connect_split (connect : String) :
    (connect.data.contains ':' = true →
      derive_connect connect 22 =
        ((py_split connect ':').getD 0 "", PortVal.str ((py_split connect ':').getD 1 "")) ∧
      derive_connect connect 873 =
        ((py_split connect ':').getD 0 "", PortVal.str ((py_split connect ':').getD 1 ""))) ∧
    (connect.data.contains ':' = false →
      derive_connect connect 22 = (connect, PortVal.int 22) ∧
      derive_connect connect 873 = (connect, PortVal.int 873)) := by
  constructor <;> intro h
  · have h' : ':' ∈ connect.data := by simpa using h
    exact ⟨by simp [derive_connect, h'], by simp [derive_connect, h']⟩
  · have h' : ':' ∉ connect.data := by simpa using h
    exact ⟨by simp [derive_connect, h'], by simp [derive_connect, h']⟩

/-- Witness for C10 (amended) at a one-colon and a no-colon connect. -/
theorem C10_amended_witness :
    derive_connect "db1:2222" 22 = ("db1", PortVal.str "2222") ∧
    derive_connect "db1" 873 = ("db1", PortVal.int 873) := by
  constructor
  · exact ((C10_amended_connect_split "db1:2222").1 (by decide)).1.trans (by decide)
  · exact ((C10_amended_connect_split "db1").2 (by decide)).2

/-- Claim C6: hostname validation compares the remote output to the
item's `host` after stripping surrounding whitespace.  With expected host
`"db1"` and output `" db1 \n"` validation succeeds and the sync proceeds
(one `sync_ssh` invocation, no errors); with output `"db2"` the item is
skipped — no sync invocation — and the error counter increases by exactly
one. -/
theorem C6_hostname_validation_strip :
    rstrip (lstrip " db1 \n") = "db1" ∧
    process_item glob6 env6a item6 init_state =
      ({ errors := 0, paths_processed := [], passwd_exists := false,
         events := [Event.sync_ssh "/bak"] }, false) ∧
    process_item glob6 env6b item6 init_state =
      ({ errors := 1, paths_processed := [], passwd_exists := false,
         events := [] }, false) := by
  refine ⟨by decide, by decide, by decide⟩

/-- Claim C5 (code bug): in the source, `if item["validate_hostname"]:`
(line 400) guards only the log message, while the remote-hostname
retrieval and comparison (lines 402-418) are at the same indentation and
run unconditionally.  With `validate_hostname` explicitly `false` and a
mismatching remote hostname, the item is still skipped with one error and
no sync is performed — contradicting the claim that no hostname
comparison can skip such an item. -/
theorem C5_validation_runs_despite_false_flag :
    item5.validate_hostname = some false ∧
    (apply_defaults glob5.debug item5).validate_hostname = some false ∧
    process_item glob5 env5 item5 init_state =
      ({ errors := 1, paths_processed := [], passwd_exists := false,
         events := [] }, false) := by
  refine ⟨by decide, by decide, by decide⟩

/-- Claim C4 (counterexample): when the `native_txt_check` pre-invocation
check fails, the item is skipped by `continue` (lines 957-959) after the
credentials file has already been written (lines 939-941) and before
`os.remove` (line 1021) — the item's processing completes with the
credentials file still on disk. -/
theorem C4_counterexample :
    init_state.passwd_exists = false ∧
    item4.native_txt_check = some true ∧
    process_item glob4 env4 item4 init_state =
      ({ errors := 1, paths_processed := [], passwd_exists := true,
         events := [] }, false) := by
  refine ⟨by decide, by decide, by decide⟩

/-- Claim C4 (amended): for a NATIVE-transport item in sync mode with a
password configured, whenever processing reaches the tool invocation and
the invocation does not raise, the credentials file is written before the
invocation, present during it (the `sync_native` event records it), and
absent when the item's processing completes.  If the `native_txt_check`
fails, or an exception escapes before the removal, the file remains (see
the counterexample). -/
theorem C4_amended_credentials_lifecycle (g : Glob) (env : ItemEnv) (item0 : Item)
    (st : RunState) (pw : String) (r : Int)
    (hmode : g.mode = Mode.sync)
    (hty : item0.type = "RSYNC_NATIVE")
    (hbc : item0.before_backup_check = none)
    (hpw : item0.connect_password = some pw)
    (hchk : item0.native_txt_check.getD false = false ∨ env.native_check = CmdOut.ret 0)
    (hrs : env.rsnapshot_cmd = CmdOut.ret r) :
    ∃ st', process_item g env item0 st = (st', false) ∧
      st'.passwd_exists = false ∧
      st'.events = st.events ++ [Event.sync_native item0.path true] := by
  simp only [process_item, apply_defaults_before_backup_check, hbc]
  simp only [process_item_mode, hmode]
  simp only [apply_defaults_type, hty]
  norm_num
  simp only [process_sync_native, apply_defaults_connect_password, hpw,
    apply_defaults_native_txt_check, Option.getD_some]
  have hrun : ∃ st', native_run_rsnapshot env (apply_defaults g.debug item0)
      { st with passwd_exists := true } = (st', false) ∧
      st'.passwd_exists = false ∧
      st'.events = st.events ++ [Event.sync_native item0.path true] := by
    simp only [native_run_rsnapshot, push_event, hrs, apply_defaults_path]
    by_cases hr : r == 0 <;> simp [hr, add_error]
  rcases hchk with h | h
  · simpa [h] using hrun
  · by_cases hb : item0.native_txt_check.getD false <;> simp [hb, h] <;>
      simpa using hrun

/-- Witness for C4 (amended): a concrete native item whose processing
completes with the credentials file removed and one recorded invocation
with the file present. -/
theorem C4_amended_witness :
    ∃ st', process_item glob4 ({} : ItemEnv) item4w init_state = (st', false) ∧
      st'.passwd_exists = false ∧
      st'.events = init_state.events ++ [Event.sync_native item4w.path true] :=
  C4_amended_credentials_lifecycle glob4 {} item4w init_state "pw" 0
    rfl rfl rfl rfl (Or.inl rfl) rfl

/-- Claim C1: an uncaught exception inside one item's processing is
caught at the item boundary (the per-item `except`), the run-wide error
counter is incremented by exactly one relative to the state at the raise
point, and the loop continues with the remaining items — a single item's
failure never terminates the loop. -/
theorem C1_item_exception_isolated (g : Glob) (env : ItemEnv) (item : Item)
    (rest : List (Item × ItemEnv)) (st st' : RunState)
    (hen : item.enabled = true) (hfil : passes_filters g item = true)
    (hraise : process_item g env item st = (st', true)) :
    items_loop g ((item, env) :: rest) st =
      items_loop g rest { st' with errors := st'.errors + 1 } := by
  simp [items_loop, hen, hfil, hraise, add_error]

/-- Witness for C1: one raising item still yields a completed loop with
one error counted. -/
theorem C1_witness :
    items_loop glob1 [(item1w, env1w)] init_state = { init_state with errors := 1 } := by
  have h := C1_item_exception_isolated glob1 env1w item1w [] init_state init_state
    (by decide) (by decide) (by decide)
  simpa [items_loop, init_state] using h

/-- Claim C2: the process exit code is 0 when the run completes with zero
errors and also 0 when the top-level `enabled` flag is present and not
true; it is 1 when the error counter is nonzero at the end of the loop,
when the run lock is already held, and when an unhandled fault occurs
(config load failure, or a missing `enabled` key). -/
theorem C2_exit_codes (g : Glob) (enabled : Bool) (items : List (Item × ItemEnv))
    (lock_ok : Bool) :
    (main_exit g (Except.error ()) lock_ok = 1) ∧
    (main_exit g (Except.ok (none, items)) lock_ok = 1) ∧
    (enabled = false → main_exit g (Except.ok (some enabled, items)) lock_ok = 0) ∧
    (enabled = true → lock_ok = false →
      main_exit g (Except.ok (some enabled, items)) lock_ok = 1) ∧
    (enabled = true → lock_ok = true →
      ((items_loop g items init_state).errors = 0 →
        main_exit g (Except.ok (some enabled, items)) lock_ok = 0) ∧
      ((items_loop g items init_state).errors ≠ 0 →
        main_exit g (Except.ok (some enabled, items)) lock_ok = 1)) := by
  refine ⟨rfl, rfl, ?_, ?_, ?_⟩
  · intro h; simp [main_exit, h]
  · intro h hl; simp [main_exit, h, hl]
  · intro h hl
    constructor <;> intro he <;> simp [main_exit, h, hl, he]

/-- Witness for C2 at concrete configs: disabled run exits 0, held lock
exits 1, empty enabled run exits 0, a run with one failing item exits 1. -/
theorem C2_witness :
    main_exit glob2 (Except.ok (some false, [])) true = 0 ∧
    main_exit glob2 (Except.ok (some true, [])) false = 1 ∧
    main_exit glob2 (Except.ok (some true, [])) true = 0 ∧
    main_exit glob2 (Except.ok (some true, [(item2w, {})])) true = 1 := by
  refine ⟨(C2_exit_codes glob2 false [] true).2.2.1 rfl,
    (C2_exit_codes glob2 true [] false).2.2.2.1 rfl rfl,
    ((C2_exit_codes glob2 true [] true).2.2.2.2 rfl rfl).1 (by decide),
    ((C2_exit_codes glob2 true [(item2w, {})] true).2.2.2.2 rfl rfl).2 (by decide)⟩

/-- Mode dispatch reduces to the rotation branch in rotation modes. -/
lemma process_item_mode_rotation (g : Glob) (env : ItemEnv) (item : Item) (st : RunState)
    (hm : g.mode ≠ Mode.sync) :
    process_item_mode g env item st = process_rotation g env item st := by
  unfold process_item_mode
  cases hg : g.mode
  · exact absurd hg hm
  all_goals rfl

/-- With a passing (or absent) `before_backup_check`, item processing
reduces to the mode dispatch on the defaulted item. -/
lemma process_item_check_pass (g : Glob) (env : ItemEnv) (item : Item) (st : RunState)
    (hbc : item.before_backup_check = none ∨ env.before_check = CmdOut.ret 0) :
    process_item g env item st = process_item_mode g env (apply_defaults g.debug item) st := by
  rcases hbc with h | h
  · simp [process_item, h]
  · cases hb : item.before_backup_check with
    | none => simp [process_item, hb]
    | some c => simp [process_item, hb, h]

/-- Appending one event changes the rotation count for `p` by one exactly
when the event is a rotation of `p`. -/
lemma rotate_count_append (p : String) (evs : List Event) (e : Event) :
    rotate_count p (evs ++ [e]) =
      rotate_count p evs +
        (match e with
         | .rotate q _ => if q == p then 1 else 0
         | _ => 0) := by
  cases e with
  | rotate q c => by_cases h : q == p <;> simp [rotate_count, List.filter_append, h]
  | sync_ssh q => simp [rotate_count, List.filter_append]
  | sync_native q b => simp [rotate_count, List.filter_append]

/-- Invariant of the item loop in a rotation mode: running the loop from
state `st` adds one rotation invocation for path `p` exactly when some
rotation-eligible item carries `p` and `p` is not yet in
`paths_processed`; disabled, filtered-out and precondition-failing items
touch neither the event trace nor the dedup list. -/
lemma rotate_count_items_loop (g : Glob) (p : String) (hm : g.mode ≠ Mode.sync)
    (items : List (Item × ItemEnv)) :
    ∀ st : RunState,
      rotate_count p (items_loop g items st).events =
        rotate_count p st.events +
          (if p ∈ st.paths_processed then 0
           else if p ∈ item_paths (List.filter (rotation_eligible g) items) then 1
           else 0) := by
  induction items with
  | nil => intro st; simp [items_loop, item_paths]
  | cons pr rest ih =>
    obtain ⟨item, env⟩ := pr
    intro st
    cases hen : item.enabled with
    | false =>
      have hel : rotation_eligible g (item, env) = false := by
        simp [rotation_eligible, hen]
      have hloop : items_loop g ((item, env) :: rest) st = items_loop g rest st := by
        simp [items_loop, hen]
      rw [hloop, ih st]
      simp [List.filter_cons, hel]
    | true =>
      by_cases hfil : passes_filters g item = true
      case neg =>
        have hfil2 : passes_filters g item = false := by simpa using hfil
        have hel : rotation_eligible g (item, env) = false := by
          simp [rotation_eligible, hfil2]
        have hloop : items_loop g ((item, env) :: rest) st = items_loop g rest st := by
          simp [items_loop, hen, hfil2]
        rw [hloop, ih st]
        simp [List.filter_cons, hel]
      case pos =>
        by_cases hbc : item.before_backup_check = none ∨ env.before_check = CmdOut.ret 0
        case pos =>
          have hel : rotation_eligible g (item, env) = true := by
            rcases hbc with h | h <;> simp [rotation_eligible, hen, hfil, h]
          have hred : process_item g env item st =
              process_rotation g env (apply_defaults g.debug item) st := by
            rw [process_item_check_pass g env item st hbc,
              process_item_mode_rotation g env _ st hm]
          have hfc : List.filter (rotation_eligible g) ((item, env) :: rest) =
              (item, env) :: List.filter (rotation_eligible g) rest := by
            simp [List.filter_cons, hel]
          rw [hfc]
          by_cases hp : item.path ∈ st.paths_processed
          · have hloop : items_loop g ((item, env) :: rest) st = items_loop g rest st := by
              simp [items_loop, hen, hfil, hred, process_rotation, hp]
            rw [hloop, ih st]
            by_cases hps : p ∈ st.paths_processed
            · simp [hps]
            · have hne : p ≠ item.path := fun he => hps (he ▸ hp)
              by_cases hpr : p ∈ (List.filter (rotation_eligible g) rest).map
                  (fun pr : Item × ItemEnv => pr.1.path) <;>
                simp [hps, item_paths, hne, hpr, List.mem_cons]
          · have key : ∀ X : RunState,
                X.events = st.events ++ [Event.rotate item.path (rsnapshot_command g.mode)] →
                X.paths_processed = st.paths_processed ++ [item.path] →
                rotate_count p X.events +
                  (if p ∈ X.paths_processed then 0
                   else if p ∈ item_paths (List.filter (rotation_eligible g) rest) then 1
                   else 0) =
                rotate_count p st.events +
                  (if p ∈ st.paths_processed then 0
                   else if p ∈
                       item_paths ((item, env) :: List.filter (rotation_eligible g) rest) then 1
                   else 0) := by
              intro X hev hpa
              rw [hev, hpa, rotate_count_append]
              by_cases hpe : p = item.path
              · subst hpe
                simp [hp, item_paths]
              · have hne : ¬ item.path == p := by simpa using fun he => hpe he.symm
                by_cases hps : p ∈ st.paths_processed <;>
                  by_cases hpr : p ∈ (List.filter (rotation_eligible g) rest).map
                      (fun pr : Item × ItemEnv => pr.1.path) <;>
                    simp [hps, hne, hpe, hpr, item_paths, List.mem_append, List.mem_cons]
            cases hcmd : env.rotate_cmd with
            | exn =>
              have hloop : items_loop g ((item, env) :: rest) st =
                  items_loop g rest (add_error
                    (push_event
                      { st with paths_processed := st.paths_processed ++ [item.path] }
                      (Event.rotate item.path (rsnapshot_command g.mode)))) := by
                simp [items_loop, hen, hfil, hred, process_rotation, hp, hcmd]
              rw [hloop, ih _]
              exact key _ (by simp [add_error, push_event]) (by simp [add_error, push_event])
            | ret r =>
              by_cases hr : r == 0
              · have hloop : items_loop g ((item, env) :: rest) st =
                    items_loop g rest
                      (push_event
                        { st with paths_processed := st.paths_processed ++ [item.path] }
                        (Event.rotate item.path (rsnapshot_command g.mode))) := by
                  simp [items_loop, hen, hfil, hred, process_rotation, hp, hcmd, hr]
                rw [hloop, ih _]
                exact key _ (by simp [push_event]) (by simp [push_event])
              · have hloop : items_loop g ((item, env) :: rest) st =
                    items_loop g rest (add_error
                      (push_event
                        { st with paths_processed := st.paths_processed ++ [item.path] }
                        (Event.rotate item.path (rsnapshot_command g.mode)))) := by
                  simp [items_loop, hen, hfil, hred, process_rotation, hp, hcmd, hr]
                rw [hloop, ih _]
                exact key _ (by simp [add_error, push_event]) (by simp [add_error, push_event])
        case neg =>
          push_neg at hbc
          obtain ⟨h1, h2⟩ := hbc
          obtain ⟨c, hsome⟩ : ∃ c, item.before_backup_check = some c := by
            cases hb : item.before_backup_check with
            | none => exact absurd hb h1
            | some c => exact ⟨c, rfl⟩
          have hel : rotation_eligible g (item, env) = false := by
            simp [rotation_eligible, hsome, hen, hfil, h2]
          have hloop : items_loop g ((item, env) :: rest) st =
              items_loop g rest (add_error st) := by
            cases hbe : env.before_check with
            | exn => simp [items_loop, hen, hfil, process_item, hsome, hbe]
            | ret r =>
              have hr0 : r ≠ 0 := by
                intro h0
                exact h2 (by rw [hbe, h0])
              have hr : (r == 0) = false := by simpa using hr0
              simp [items_loop, hen, hfil, process_item, hsome, hbe, hr]
          rw [hloop, ih (add_error st)]
          simp [add_error, List.filter_cons, hel]

/-- Claim C3 (counterexample): a rotation run whose single enabled,
unfiltered item carries path `/a` but whose `before_backup_check` exits
nonzero invokes the rotation tool zero times for `/a`, not exactly once:
the check (lines 241-251) runs before the rotation block (line 257) and
a failure does `errors += 1; continue`, skipping the item entirely. -/
theorem C3_counterexample :
    is_rotation glob3.mode = true ∧
    (item3c 1 "/a").enabled = true ∧
    passes_filters glob3 (item3c 1 "/a") = true ∧
    (item3c 1 "/a").path = "/a" ∧
    items_loop glob3 [(item3c 1 "/a", env3fail)] init_state =
      { errors := 1, paths_processed := [], passwd_exists := false, events := [] } ∧
    rotate_count "/a"
      (items_loop glob3 [(item3c 1 "/a", env3fail)] init_state).events = 0 := by
  refine ⟨by decide, by decide, by decide, by decide, by decide, by decide⟩

/-- Claim C3 (amended): in a rotation mode, the rotation tool is invoked
exactly once for a path `p` when at least one enabled, unfiltered item
carrying `p` also passes (or lacks) its `before_backup_check`
(`rotation_eligible`) — the first such item rotates it and the
`paths_processed` set skips every later item with the same path — and
zero times when no item carrying `p` is eligible (in particular when
every item with that path fails its precondition check). -/
theorem C3_amended_rotation_once_per_path (g : Glob) (items : List (Item × ItemEnv))
    (p : String) (hm : is_rotation g.mode = true) :
    ((∃ pr ∈ items, rotation_eligible g pr = true ∧ pr.1.path = p) →
      rotate_count p (items_loop g items init_state).events = 1) ∧
    ((∀ pr ∈ items, rotation_eligible g pr = true → pr.1.path ≠ p) →
      rotate_count p (items_loop g items init_state).events = 0) := by
  have hm2 : g.mode ≠ Mode.sync := by
    intro hs
    rw [hs] at hm
    exact Bool.false_ne_true hm
  have hrun := rotate_count_items_loop g p hm2 items init_state
  have hmem : p ∈ item_paths (List.filter (rotation_eligible g) items) ↔
      ∃ pr ∈ items, rotation_eligible g pr = true ∧ pr.1.path = p := by
    constructor
    · intro hpm
      obtain ⟨pr, hprf, hpath⟩ := List.mem_map.mp hpm
      obtain ⟨hin, hel⟩ := List.mem_filter.mp hprf
      exact ⟨pr, hin, hel, hpath⟩
    · rintro ⟨pr, hin, hel, hpath⟩
      exact List.mem_map.mpr ⟨pr, List.mem_filter.mpr ⟨hin, hel⟩, hpath⟩
  constructor
  · intro hex
    rw [hrun]
    simp [init_state, rotate_count, hmem.mpr hex]
  · intro hall
    have hnm : p ∉ item_paths (List.filter (rotation_eligible g) items) := by
      intro hpm
      obtain ⟨pr, hin, hel, hpath⟩ := hmem.mp hpm
      exact hall pr hin hel hpath
    rw [hrun]
    simp [init_state, rotate_count, hnm]

/-- Witness for C3 (amended): a check-failing item for `/a` followed by
two passing items for `/a` rotates `/a` exactly once; a path whose only
item fails its check is rotated zero times. -/
theorem C3_amended_witness :
    rotate_count "/a"
      (items_loop glob3
        [(item3c 1 "/a", env3fail), (item3 2 "/a", {}), (item3 3 "/a", {})]
        init_state).events = 1 ∧
    rotate_count "/b"
      (items_loop glob3 [(item3c 4 "/b", env3fail)] init_state).events = 0 := by
  constructor
  · exact (C3_amended_rotation_once_per_path glob3
      [(item3c 1 "/a", env3fail), (item3 2 "/a", {}), (item3 3 "/a", {})] "/a"
      (by decide)).1 ⟨(item3 2 "/a", {}), by decide, by decide, rfl⟩
  · exact (C3_amended_rotation_once_per_path glob3
      [(item3c 4 "/b", env3fail)] "/b" (by decide)).2 (by decide)

/-- Claim C8 (counterexample): for an `RSYNC_SSH` item, `"ALL"` is not a
key of `data_expand` — the per-OS-family expansion triggers on the family
names `UBUNTU`/`DEBIAN`/`CENTOS`, not on the `"ALL"` sentinel.  With
`source = "ALL"` the emitted configuration has exactly one backup line
for the literal path `ALL`, and no line for `/etc` even though `/etc`
belongs to every canonical family set and nothing is excluded. -/
theorem C8_counterexample :
    conf_backup_lines (apply_defaults false item8all) "h" =
      ["backup\t\troot@h:ALL/\trsnapshot/"] ∧
    "backup\t\troot@h:/etc/\trsnapshot/" ∉
      conf_backup_lines (apply_defaults false item8all) "h" := by
  refine ⟨by decide, by decide⟩

/-- Claim C8 (amended): for an `RSYNC_SSH` item in sync mode, when
`source` is one of the OS-family keys of `data_expand`
(`UBUNTU`/`DEBIAN`/`CENTOS`) the emitted configuration contains one
backup source line per directory of that family's canonical set, omitting
the directories listed in the item's `exclude` set; for any other
`source` — including the `"ALL"` sentinel — exactly one backup source
line for that path is emitted. -/
theorem C8_amended_expansion (item : Item) (ch : String)
    (hty : item.type = "RSYNC_SSH") :
    (∀ dirs, List.lookup item.source data_expand = some dirs →
      conf_backup_lines item ch =
        (dirs.filter (fun source => !exclude_has item source)).map (fun source =>
          conf_backup_line (fmt_str item.connect_user) ch source
            (if source == "/opt/sysadmws" then "\t" else "")
            (if source == "/opt/sysadmws" then
              "+rsync_long_args=--exclude=/opt/sysadmws/bulk_log --exclude=log"
            else "")) ∧
      ∀ source ∈ dirs, exclude_has item source = false →
        conf_backup_line (fmt_str item.connect_user) ch source
          (if source == "/opt/sysadmws" then "\t" else "")
          (if source == "/opt/sysadmws" then
            "+rsync_long_args=--exclude=/opt/sysadmws/bulk_log --exclude=log"
          else "") ∈ conf_backup_lines item ch) ∧
    (List.lookup item.source data_expand = none →
      conf_backup_lines item ch =
        [conf_backup_line (fmt_str item.connect_user) ch item.source "" ""]) := by
  constructor
  · intro dirs hdirs
    have heq : conf_backup_lines item ch =
        (dirs.filter (fun source => !exclude_has item source)).map (fun source =>
          conf_backup_line (fmt_str item.connect_user) ch source
            (if source == "/opt/sysadmws" then "\t" else "")
            (if source == "/opt/sysadmws" then
              "+rsync_long_args=--exclude=/opt/sysadmws/bulk_log --exclude=log"
            else "")) := by
      simp [conf_backup_lines, hty, hdirs]
    refine ⟨heq, ?_⟩
    intro source hsrc hex
    rw [heq]
    exact List.mem_map.mpr ⟨source, List.mem_filter.mpr ⟨hsrc, by simp [hex]⟩, rfl⟩
  · intro hnone
    simp [conf_backup_lines, hty, hnone]

/-- Witness for C8 (amended): a `UBUNTU` item excluding `/home` yields
the six remaining canonical backup lines. -/
theorem C8_amended_witness :
    conf_backup_lines (apply_defaults false item8w) "h" =
      ["backup\t\troot@h:/etc/\trsnapshot/",
       "backup\t\troot@h:/root/\trsnapshot/",
       "backup\t\troot@h:/var/spool/cron/\trsnapshot/",
       "backup\t\troot@h:/var/lib/dpkg/\trsnapshot/",
       "backup\t\troot@h:/usr/local/\trsnapshot/",
       "backup\t\troot@h:/opt/sysadmws/\trsnapshot/\t+rsync_long_args=--exclude=/opt/sysadmws/bulk_log --exclude=log"] := by
  have h := ((C8_amended_expansion (apply_defaults false item8w) "h" rfl).1
    ["/etc", "/home", "/root", "/var/spool/cron", "/var/lib/dpkg", "/usr/local",
      "/opt/sysadmws"] (by decide)).1
  exact h.trans (by decide)

/-- Every generated backup source line starts with the `backup` keyword
and its two tabs. -/
lemma conf_backup_lines_shape (item : Item) (ch : String) :
    ∀ l ∈ conf_backup_lines item ch, ∃ r, l = "backup\t\t" ++ r := by
  intro l hl
  unfold conf_backup_lines at hl
  by_cases h1 : item.type == "RSYNC_SSH"
  · simp only [h1, if_true] at hl
    cases hlk : List.lookup item.source data_expand with
    | some dirs =>
      rw [hlk] at hl
      obtain ⟨src, hsrc, rfl⟩ := List.mem_map.mp hl
      exact ⟨_, rfl⟩
    | none =>
      rw [hlk] at hl
      simp at hl
      subst hl
      exact ⟨_, rfl⟩
  · simp only [h1, if_false] at hl
    by_cases h2 : item.type == "MYSQL_SSH"
    · simp only [h2, if_true] at hl
      simp at hl
      subst hl
      exact ⟨_, rfl⟩
    · simp only [h2, if_false] at hl
      by_cases h3 : item.type == "POSTGRESQL_SSH"
      · simp only [h3, if_true] at hl
        simp at hl
        subst hl
        exact ⟨_, rfl⟩
      · simp only [h3, if_false] at hl
        by_cases h4 : item.type == "MONGODB_SSH"
        · simp only [h4, if_true] at hl
          simp at hl
          subst hl
          exact ⟨_, rfl⟩
        · simp only [h4, if_false] at hl
          simp at hl

/-- With `retain_hourly` absent, no active hourly retention line occurs
in the rotation config. -/
lemma hourly_active_notin_rotation (it : Item) (hH : it.retain_hourly = none) (v : String) :
    ("retain\t\thourly\t" ++ v) ∉ rotation_conf_lines it := by
  intro hmem
  simp only [rotation_conf_lines, retain_hourly_line, hH, List.mem_cons,
    List.not_mem_nil, or_false] at hmem
  rcases hmem with h|h|h|h|h|h|h|h|h|h|h|h|h|h|h|h|h|h
  · exact append_ne_right 9 "retain\t\thourly\t" "config_version\t1.2" v
      (by decide) (by decide) h
  · exact append_ne_append 9 "retain\t\thourly\t" "snapshot_root\t" v it.path
      (by decide) (by decide) (by decide) h
  · exact append_ne_right 9 "retain\t\thourly\t" "cmd_cp\t\t/bin/cp" v
      (by decide) (by decide) h
  · exact append_ne_right 9 "retain\t\thourly\t" "cmd_rm\t\t/bin/rm" v
      (by decide) (by decide) h
  · exact append_ne_right 9 "retain\t\thourly\t" "cmd_rsync\t/usr/bin/rsync" v
      (by decide) (by decide) h
  · exact append_ne_right 9 "retain\t\thourly\t" "cmd_ssh\t\t/usr/bin/ssh" v
      (by decide) (by decide) h
  · exact append_ne_right 9 "retain\t\thourly\t" "cmd_logger\t/usr/bin/logger" v
      (by decide) (by decide) h
  · exact append_ne_right 9 "retain\t\thourly\t" "#retain\t\thourly\tNONE" v
      (by decide) (by decide) h
  · exact append_ne_append 9 "retain\t\thourly\t" "retain\t\tdaily\t" v
      (fmt_nat it.retain_daily) (by decide) (by decide) (by decide) h
  · exact append_ne_append 9 "retain\t\thourly\t" "retain\t\tweekly\t" v
      (fmt_nat it.retain_weekly) (by decide) (by decide) (by decide) h
  · exact append_ne_append 9 "retain\t\thourly\t" "retain\t\tmonthly\t" v
      (fmt_nat it.retain_monthly) (by decide) (by decide) (by decide) h
  · exact append_ne_append 9 "retain\t\thourly\t" "verbose\t\t" v
      (fmt_nat it.verbosity_level) (by decide) (by decide) (by decide) h
  · exact append_ne_right 9 "retain\t\thourly\t" "loglevel\t3" v
      (by decide) (by decide) h
  · exact append_ne_right 9 "retain\t\thourly\t"
      "logfile\t\t/opt/sysadmws/rsnapshot_backup/rsnapshot.log" v
      (by decide) (by decide) h
  · exact append_ne_right 9 "retain\t\thourly\t"
      "lockfile\t/opt/sysadmws/rsnapshot_backup/rsnapshot.pid" v
      (by decide) (by decide) h
  · exact append_ne_right 9 "retain\t\thourly\t" "sync_first\t1" v
      (by decide) (by decide) h
  · exact append_ne_right 9 "retain\t\thourly\t"
      "# any backup definition enough for rotation" v
      (by decide) (by decide) h
  · exact append_ne_right 9 "retain\t\thourly\t" "backup\t\t/etc/\t\trsnapshot/" v
      (by decide) (by decide) h

/-- With `retain_hourly` absent, no active hourly retention line occurs
in the SSH sync config. -/
lemma hourly_active_notin_sync (it : Item) (ch : String) (cp : PortVal)
    (hH : it.retain_hourly = none) (v : String) :
    ("retain\t\thourly\t" ++ v) ∉ sync_conf_lines it ch cp := by
  intro hmem
  simp only [sync_conf_lines, retain_hourly_line, hH, List.mem_append, List.mem_cons,
    List.not_mem_nil, or_false] at hmem
  rcases hmem with ((h|h|h|h|h|h|h|h|h|h|h|h|h|h|h|h|h|h)|h)|h
  · exact append_ne_right 9 "retain\t\thourly\t" "config_version\t1.2" v
      (by decide) (by decide) h
  · exact append_ne_append 9 "retain\t\thourly\t" "snapshot_root\t" v it.path
      (by decide) (by decide) (by decide) h
  · exact append_ne_right 9 "retain\t\thourly\t" "cmd_cp\t\t/bin/cp" v
      (by decide) (by decide) h
  · exact append_ne_right 9 "retain\t\thourly\t" "cmd_rm\t\t/bin/rm" v
      (by decide) (by decide) h
  · exact append_ne_right 9 "retain\t\thourly\t" "cmd_rsync\t/usr/bin/rsync" v
      (by decide) (by decide) h
  · exact append_ne_right 9 "retain\t\thourly\t" "cmd_ssh\t\t/usr/bin/ssh" v
      (by decide) (by decide) h
  · exact append_ne_right 9 "retain\t\thourly\t" "cmd_logger\t/usr/bin/logger" v
      (by decide) (by decide) h
  · exact append_ne_right 9 "retain\t\thourly\t" "#retain\t\thourly\tNONE" v
      (by decide) (by decide) h
  · exact append_ne_append 9 "retain\t\thourly\t" "retain\t\tdaily\t" v
      (fmt_nat it.retain_daily) (by decide) (by decide) (by decide) h
  · exact append_ne_append 9 "retain\t\thourly\t" "retain\t\tweekly\t" v
      (fmt_nat it.retain_weekly) (by decide) (by decide) (by decide) h
  · exact append_ne_append 9 "retain\t\thourly\t" "retain\t\tmonthly\t" v
      (fmt_nat it.retain_monthly) (by decide) (by decide) (by decide) h
  · exact append_ne_append 9 "retain\t\thourly\t" "verbose\t\t" v
      (fmt_nat it.verbosity_level) (by decide) (by decide) (by decide) h
  · exact append_ne_right 9 "retain\t\thourly\t" "loglevel\t3" v
      (by decide) (by decide) h
  · exact append_ne_right 9 "retain\t\thourly\t"
      "logfile\t\t/opt/sysadmws/rsnapshot_backup/rsnapshot.log" v
      (by decide) (by decide) h
  · exact append_ne_right 9 "retain\t\thourly\t"
      "lockfile\t/opt/sysadmws/rsnapshot_backup/rsnapshot.pid" v
      (by decide) (by decide) h
  · exact append_ne_append 9 "retain\t\thourly\t" ("ssh_args\t" ++ ssh_args ++ " -p ") v
      cp.fmt (by decide) (by decide) (by decide) h
  · rw [String.append_assoc, String.append_assoc] at h
    exact append_ne_append 9 "retain\t\thourly\t"
      "rsync_long_args\t-az --delete --delete-excluded --numeric-ids --relative " v
      (fmt_str it.rsync_verbosity_args ++ (" " ++ fmt_str it.rsync_args))
      (by decide) (by decide) (by decide) h
  · exact append_ne_right 9 "retain\t\thourly\t" "sync_first\t1" v
      (by decide) (by decide) h
  · obtain ⟨r, hr⟩ := conf_backup_lines_shape it ch _ h
    exact append_ne_append 1 "retain\t\thourly\t" "backup\t\t" v r
      (by decide) (by decide) (by decide) hr
  · exact append_ne_empty "retain\t\thourly\t" v (by decide) h

/-- Claim C7: in both the rotation and the SSH sync configuration, the
daily, weekly and monthly retention lines are always present and active;
the hourly retention line is active with the item\'s `retain_hourly` value
exactly when that field is present, and with the field missing the only
hourly line is the commented `#retain`/`NONE` one — no active hourly
directive (in particular not one with value `0`) occurs. -/
theorem C7_retention_lines (dbg : Bool) (item0 : Item) (ch : String) (cp : PortVal) :
    (∃ d, (apply_defaults dbg item0).retain_daily = some d ∧
      ("retain\t\tdaily\t" ++ toString d) ∈ rotation_conf_lines (apply_defaults dbg item0) ∧
      ("retain\t\tdaily\t" ++ toString d) ∈ sync_conf_lines (apply_defaults dbg item0) ch cp) ∧
    (∃ w, (apply_defaults dbg item0).retain_weekly = some w ∧
      ("retain\t\tweekly\t" ++ toString w) ∈ rotation_conf_lines (apply_defaults dbg item0) ∧
      ("retain\t\tweekly\t" ++ toString w) ∈ sync_conf_lines (apply_defaults dbg item0) ch cp) ∧
    (∃ m, (apply_defaults dbg item0).retain_monthly = some m ∧
      ("retain\t\tmonthly\t" ++ toString m) ∈ rotation_conf_lines (apply_defaults dbg item0) ∧
      ("retain\t\tmonthly\t" ++ toString m) ∈ sync_conf_lines (apply_defaults dbg item0) ch cp) ∧
    (∀ h, item0.retain_hourly = some h →
      ("retain\t\thourly\t" ++ toString h) ∈ rotation_conf_lines (apply_defaults dbg item0) ∧
      ("retain\t\thourly\t" ++ toString h) ∈
        sync_conf_lines (apply_defaults dbg item0) ch cp) ∧
    (item0.retain_hourly = none →
      "#retain\t\thourly\tNONE" ∈ rotation_conf_lines (apply_defaults dbg item0) ∧
      "#retain\t\thourly\tNONE" ∈ sync_conf_lines (apply_defaults dbg item0) ch cp ∧
      (∀ v, ("retain\t\thourly\t" ++ v) ∉ rotation_conf_lines (apply_defaults dbg item0) ∧
        ("retain\t\thourly\t" ++ v) ∉ sync_conf_lines (apply_defaults dbg item0) ch cp)) := by
  have hd : (apply_defaults dbg item0).retain_daily =
      some (item0.retain_daily.getD 7) := rfl
  have hw : (apply_defaults dbg item0).retain_weekly =
      some (item0.retain_weekly.getD 4) := rfl
  have hm : (apply_defaults dbg item0).retain_monthly =
      some (item0.retain_monthly.getD 3) := rfl
  refine ⟨⟨item0.retain_daily.getD 7, hd, ?_, ?_⟩,
    ⟨item0.retain_weekly.getD 4, hw, ?_, ?_⟩,
    ⟨item0.retain_monthly.getD 3, hm, ?_, ?_⟩, ?_, ?_⟩
  · simp [rotation_conf_lines, fmt_nat, hd]
  · simp [sync_conf_lines, fmt_nat, hd]
  · simp [rotation_conf_lines, fmt_nat, hw]
  · simp [sync_conf_lines, fmt_nat, hw]
  · simp [rotation_conf_lines, fmt_nat, hm]
  · simp [sync_conf_lines, fmt_nat, hm]
  · intro h hh
    constructor
    · simp [rotation_conf_lines, retain_hourly_line, hh]
    · simp [sync_conf_lines, retain_hourly_line, hh]
  · intro hh
    refine ⟨?_, ?_, ?_⟩
    · simp [rotation_conf_lines, retain_hourly_line, hh]
    · simp [sync_conf_lines, retain_hourly_line, hh]
    · intro v
      have hH : (apply_defaults dbg item0).retain_hourly = none := by
        rw [apply_defaults_retain_hourly]
        exact hh
      exact ⟨hourly_active_notin_rotation _ hH v,
        hourly_active_notin_sync _ ch cp hH v⟩

/-- Witness for C7: `retain_hourly: 3` yields an active line with value
3; a missing `retain_hourly` yields the commented line and no active
`0`-valued line. -/
theorem C7_witness :
    "retain\t\thourly\t3" ∈ rotation_conf_lines (apply_defaults false item7a) ∧
    "#retain\t\thourly\tNONE" ∈ rotation_conf_lines (apply_defaults false item7b) ∧
    "retain\t\thourly\t0" ∉ rotation_conf_lines (apply_defaults false item7b) := by
  have ha := (C7_retention_lines false item7a "h" (PortVal.int 22)).2.2.2.1 3 rfl
  have hb := (C7_retention_lines false item7b "h" (PortVal.int 22)).2.2.2.2 rfl
  refine ⟨?_, hb.1, ?_⟩
  · have he : "retain\t\thourly\t" ++ toString (3 : Nat) = "retain\t\thourly\t3" := by decide
    exact he ▸ ha.1
  · intro hc
    have h0 := (hb.2.2 "0").1
    have he : "retain\t\thourly\t" ++ "0" = "retain\t\thourly\t0" := by decide
    exact h0 (he ▸ hc)

end RsnapshotBackup
